import Mathlib

/-!
Shallow embedding of the Dify batch-test pipeline
(`batch_test.py` and `utils/dify_client_v2.py`).

The embedding models:
* `run_chat`   — `DifyClient.run_chat`: one blocking HTTP request; the
  response (status + parsed JSON body) or a transport error is the input,
  the returned JSON dict is the output.  Exceptions are caught inside the
  function, so it is a total function.
* `chat`       — the retry executor: `for attempt in range(max_retries)`
  with exponential backoff `2 ** attempt` and the literal source condition
  `if False and answer and answer.strip()` on the success branch.
* `thread_chat` — the dispatcher: yields one triple per submitted query in
  completion order; a raised task is converted to `(query, "", False)`.
* `main`'s aggregation loop, `write_result`, and `read_txt`.
-/

/-- A parsed JSON object, reduced to the string fields the program reads:
an association list from field name to string value. -/
abbrev Json : Type := List (String × String)

/-- Python `dict.get(key, dflt)`: first binding of `key`, else `dflt`. -/
def jsonGet (j : Json) (key dflt : String) : String :=
  match j with
  | [] => dflt
  | (k, v) :: rest => if k = key then v else jsonGet rest key dflt

/-- What the single `requests.post` inside `run_chat` produces: either a
response with a status code and a parsed JSON body, or a raised
transport/connection error with a message. -/
inductive HttpEvent : Type
  | response (status : Nat) (body : Json)
  | transportError (msg : String)

/-- The error message built by `run_chat` for a non-200 status
(`f"Failed to execute workflow, status code: {response.status_code}"`). -/
def statusMessage (status : Nat) : String :=
  "Failed to execute workflow, status code: " ++ toString status

/-- Embeds `DifyClient.run_chat` (`utils/dify_client_v2.py`, lines 125-162) as a
function of the outcome of its single blocking request: a 200 response
returns the parsed body; any other status returns the error dict
`{"status": "error", "message": f"Failed to execute workflow, status code: {code}"}`;
a raised transport error is caught and returns
`{"status": "error", "message": str(e)}`.  No exception escapes. -/
def run_chat (event : HttpEvent) : Json :=
  match event with
  | HttpEvent.response status body =>
      if status = 200 then body
      else [("status", "error"), ("message", statusMessage status)]
  | HttpEvent.transportError msg =>
      [("status", "error"), ("message", msg)]

/-- What one iteration of the `try:` block in `chat` observes from the
client: either the dict returned by `run_chat` (the `result` value), or an
exception raised inside the block. -/
inductive ClientResp : Type
  | result (r : Json)
  | exn (msg : String)
deriving DecidableEq

/-- The observable behaviour of one `chat` call: the returned triple
`(query, answer, success)`, the backoff sleeps performed (in seconds, in
order), and the number of client calls made. -/
structure ChatTrace : Type where
  outcome : String × String × Bool
  sleeps : List Nat
  calls : Nat
deriving DecidableEq, Repr

/-- The body of `chat`'s `for attempt in range(max_retries)` loop
(`batch_test.py`, lines 29-60), iterated over the remaining attempt
indices.  Each iteration calls the client; the source's success test is
the literal `if False and answer and answer.strip():` (line 43), embedded
as `False ∧ answer ≠ "" ∧ answer.trim ≠ ""` (Python truthiness of a
string is non-emptiness).  An exception in the block is caught.  After a
failed iteration, if `attempt < max_retries - 1` the loop sleeps
`2 ** attempt`.  Falling off the loop returns `(query, "", False)`. -/
def chatLoop (query : String) (client : Nat → ClientResp) (maxRetries : Nat) :
    List Nat → ChatTrace
  | [] => ⟨(query, "", false), [], 0⟩
  | attempt :: rest =>
      let attemptAnswer : Option String :=
        match client attempt with
        | ClientResp.result r =>
            let answer := jsonGet r "answer" ""
            if False ∧ answer ≠ "" ∧ answer.trim ≠ "" then some answer else none
        | ClientResp.exn _ => none
      match attemptAnswer with
      | some answer => ⟨(query, answer, true), [], 1⟩
      | none =>
          let pause := if attempt < maxRetries - 1 then [2 ^ attempt] else []
          let t := chatLoop query client maxRetries rest
          ⟨t.outcome, pause ++ t.sleeps, 1 + t.calls⟩

/-- Embeds `chat(query, client, max_retries)` (`batch_test.py`, lines 27-60): the
retry executor, with `client i` the behaviour of the client call on
attempt `i`. -/
def chat (query : String) (client : Nat → ClientResp) (maxRetries : Nat) : ChatTrace :=
  chatLoop query client maxRetries (List.range maxRetries)

example :
    chat "q" (fun _ => ClientResp.result (run_chat (HttpEvent.response 200 [("answer", "hi")]))) 3
      = ⟨("q", "", false), [1, 2], 3⟩ := by decide

/-- What `future.result()` produces for one submitted task in
`thread_chat`: the triple the task returned, or the exception it raised
(caught by the `except` clause of the consuming loop). -/
inductive TaskResult : Type
  | value (t : String × String × Bool)
  | raised (msg : String)
deriving DecidableEq, Repr

/-- The triple `thread_chat` yields for one completed future
(`batch_test.py`, lines 79-97): on a returned `(q, r, success)` it yields
`(q, r, True)` when `success` and `(query, "", False)` otherwise; on a
raised exception it yields `(query, "", False)`, where `query` is the
submitted query recovered from `future_to_query`. -/
def yield_of (task : String → TaskResult) (query : String) : String × String × Bool :=
  match task query with
  | TaskResult.value (q, r, success) => if success then (q, r, true) else (query, "", false)
  | TaskResult.raised _ => (query, "", false)

/-- Embeds `thread_chat(query_list)` (`batch_test.py`, lines 63-106) as the
sequence of yielded triples.  `as_completed` hands the futures back in an
arbitrary completion order, modelled by the `order` argument (a
permutation of the submitted queries); each future contributes exactly one
yielded triple. -/
def thread_chat (order : List String) (task : String → TaskResult) :
    List (String × String × Bool) :=
  order.map (yield_of task)

/-- One step of `main`'s consumption loop (`batch_test.py`, lines 181-188)
on the accumulator `(success_count, error_query_list)`: a triple with
`success and r` truthy is written via `write_result` (counted on success,
appended to the error list if the write fails); every other triple is
appended to the error list.  `writeOk q r` models whether
`write_result(q, r, f)` returned `True`. -/
def main_step (writeOk : String → String → Bool) (acc : Nat × List String)
    (o : String × String × Bool) : Nat × List String :=
  if o.snd.snd = true ∧ o.snd.fst ≠ "" then
    if writeOk o.fst o.snd.fst = true then (acc.fst + 1, acc.snd)
    else (acc.fst, acc.snd ++ [o.fst])
  else (acc.fst, acc.snd ++ [o.fst])

/-- Runs `main`'s aggregation over the whole outcome stream, starting from
`success_count = 0` and an empty `error_query_list`. -/
def main_aggregate (outcomes : List (String × String × Bool))
    (writeOk : String → String → Bool) : Nat × List String :=
  outcomes.foldl (main_step writeOk) (0, [])

/-- The answer formatting in `write_result` (`batch_test.py`, lines
138-139): `answer.replace("\n", "").replace(" ", "")`.  Replacing every
occurrence of a single character by the empty string removes exactly the
occurrences of that character, i.e. filters it out of the character
sequence. -/
def formatted_answer (answer : String) : String :=
  String.mk ((answer.data.filter (fun c => c ≠ '\n')).filter (fun c => c ≠ ' '))

/-- Embeds `write_result(query, answer, f)` (`batch_test.py`, lines 133-146) as
the three lines it appends to the primary sink: the query line, the
formatted answer line, and the 50-dash separator. -/
def write_result (query answer : String) : List String :=
  ["query: " ++ query,
   "answer: " ++ formatted_answer answer,
   String.mk (List.replicate 50 (Char.ofNat 45))]

/-- Python `line.strip()`: remove leading and trailing whitespace. -/
def pyStrip (s : String) : String :=
  String.mk (((s.data.dropWhile Char.isWhitespace).reverse.dropWhile Char.isWhitespace).reverse)

/-- The two exceptions `read_txt` can raise: `FileNotFoundError` when the
path does not exist, `ValueError` when no query survives filtering. -/
inductive ReadError : Type
  | fileNotFound
  | emptyFile
deriving DecidableEq, Repr

/-- Embeds `read_txt(file_path)` (`batch_test.py`, lines 109-130).  The file is
modelled as `none` when `os.path.exists` is false and `some lines` (the
result of `f.readlines()`) otherwise.  It strips each line, keeps the
truthy (non-empty) results, and raises if the file is missing or the
filtered list is empty. -/
def read_txt : Option (List String) → Except ReadError (List String)
  | none => Except.error ReadError.fileNotFound
  | some lines =>
      if (lines.map pyStrip).filter (fun l => l ≠ "") = [] then
        Except.error ReadError.emptyFile
      else Except.ok ((lines.map pyStrip).filter (fun l => l ≠ ""))

example : formatted_answer "hello\nworld  foo" = "helloworldfoo" := by decide
example : read_txt (some ["", "  a  ", " \t"]) = Except.ok ["a"] := rfl
example : read_txt (some [" ", ""]) = Except.error ReadError.emptyFile := rfl


/-! ### Helper lemmas -/

/-- With the source's `if False and ...` success test, the loop body never
takes the early-return branch, so the returned triple is always the
fall-through `(query, "", False)`. -/
theorem chatLoop_outcome (query : String) (client : Nat → ClientResp) (maxRetries : Nat) :
    ∀ attempts : List Nat,
      (chatLoop query client maxRetries attempts).outcome = (query, "", false)
  | [] => rfl
  | attempt :: rest => by
      cases h : client attempt with
      | result r =>
          simp only [chatLoop, h, false_and, if_false]
          exact chatLoop_outcome query client maxRetries rest
      | exn m =>
          simp only [chatLoop, h]
          exact chatLoop_outcome query client maxRetries rest

/-- The loop performs exactly one client call per attempt index it
iterates over. -/
theorem chatLoop_calls (query : String) (client : Nat → ClientResp) (maxRetries : Nat) :
    ∀ attempts : List Nat,
      (chatLoop query client maxRetries attempts).calls = attempts.length
  | [] => rfl
  | attempt :: rest => by
      cases h : client attempt with
      | result r =>
          simp only [chatLoop, h, false_and, if_false, List.length_cons]
          rw [chatLoop_calls query client maxRetries rest]
          omega
      | exn m =>
          simp only [chatLoop, h, List.length_cons]
          rw [chatLoop_calls query client maxRetries rest]
          omega

/-- The loop trace only depends on the client's behaviour at the attempt
indices actually iterated over. -/
theorem chatLoop_congr (query : String) (c1 c2 : Nat → ClientResp) (maxRetries : Nat) :
    ∀ attempts : List Nat, (∀ i ∈ attempts, c1 i = c2 i) →
      chatLoop query c1 maxRetries attempts = chatLoop query c2 maxRetries attempts
  | [], _ => rfl
  | attempt :: rest, h => by
      have h0 : c1 attempt = c2 attempt := h attempt (List.mem_cons_self attempt rest)
      have hrest : chatLoop query c1 maxRetries rest = chatLoop query c2 maxRetries rest :=
        chatLoop_congr query c1 c2 maxRetries rest (fun i hi => h i (List.mem_cons_of_mem _ hi))
      cases h2 : c2 attempt with
      | result r => simp only [chatLoop, h0, h2, hrest]
      | exn m => simp only [chatLoop, h0, h2, hrest]

/-- Each consumed triple moves the accumulator's total
(`success_count + len(error_query_list)`) up by exactly one. -/
theorem main_step_count (writeOk : String → String → Bool) (acc : Nat × List String)
    (o : String × String × Bool) :
    (main_step writeOk acc o).fst + (main_step writeOk acc o).snd.length
      = acc.fst + acc.snd.length + 1 := by
  unfold main_step
  by_cases h1 : o.snd.snd = true ∧ o.snd.fst ≠ ""
  · by_cases h2 : writeOk o.fst o.snd.fst = true
    · rw [if_pos h1, if_pos h2]
      show acc.1 + 1 + acc.2.length = acc.1 + acc.2.length + 1
      omega
    · rw [if_pos h1, if_neg h2]
      show acc.1 + (acc.2 ++ [o.fst]).length = acc.1 + acc.2.length + 1
      rw [List.length_append, List.length_singleton]
      omega
  · rw [if_neg h1]
    show acc.1 + (acc.2 ++ [o.fst]).length = acc.1 + acc.2.length + 1
    rw [List.length_append, List.length_singleton]
    omega

/-- Folding `main`'s loop over a stream adds the stream's length to the
accumulator's total. -/
theorem main_fold_count (writeOk : String → String → Bool) :
    ∀ (outcomes : List (String × String × Bool)) (acc : Nat × List String),
      (outcomes.foldl (main_step writeOk) acc).fst
        + (outcomes.foldl (main_step writeOk) acc).snd.length
        = acc.fst + acc.snd.length + outcomes.length
  | [], acc => by simp
  | o :: rest, acc => by
      simp only [List.foldl_cons, List.length_cons]
      rw [main_fold_count writeOk rest (main_step writeOk acc o), main_step_count]
      omega

/-- A non-empty `dropWhile p` result starts with (hence contains) an
element violating `p`. -/
theorem dropWhile_has_violation (p : Char → Bool) :
    ∀ l : List Char, l.dropWhile p ≠ [] → ∃ c ∈ l.dropWhile p, ¬ p c
  | [], h => absurd rfl h
  | a :: l, h => by
      by_cases hp : p a
      · rw [List.dropWhile_cons_of_pos hp] at h ⊢
        exact dropWhile_has_violation p l h
      · rw [List.dropWhile_cons_of_neg hp]
        exact ⟨a, List.mem_cons_self a l, hp⟩

/-- Stripping a string yields the empty string exactly when every
character of the string is whitespace. -/
theorem pyStrip_eq_empty_iff (s : String) :
    pyStrip s = "" ↔ ∀ c ∈ s.data, c.isWhitespace := by
  have hdata : pyStrip s = "" ↔
      (((s.data.dropWhile Char.isWhitespace).reverse.dropWhile Char.isWhitespace).reverse
        = ([] : List Char)) := by
    constructor
    · intro h
      have := congrArg String.data h
      simpa [pyStrip] using this
    · intro h
      apply String.ext
      simpa [pyStrip] using h
  rw [hdata, List.reverse_eq_nil_iff, List.dropWhile_eq_nil_iff]
  constructor
  · intro h c hc
    rcases (List.mem_append.mp
        (by rw [List.takeWhile_append_dropWhile]; exact hc :
          c ∈ s.data.takeWhile Char.isWhitespace ++ s.data.dropWhile Char.isWhitespace)) with
      htake | hdrop
    · exact List.mem_takeWhile_imp htake
    · exact h c (List.mem_reverse.mpr hdrop)
  · intro h c hc
    exact h c ((List.dropWhile_sublist Char.isWhitespace).mem (List.mem_reverse.mp hc))

/-- A non-empty stripped string contains a non-whitespace character. -/
theorem pyStrip_has_content (s : String) (h : pyStrip s ≠ "") :
    ∃ c ∈ (pyStrip s).data, ¬ c.isWhitespace := by
  have hne : (s.data.dropWhile Char.isWhitespace).reverse.dropWhile Char.isWhitespace
      ≠ ([] : List Char) := by
    intro hnil
    apply h
    apply String.ext
    simp [pyStrip, hnil]
  obtain ⟨c, hc, hcp⟩ :=
    dropWhile_has_violation Char.isWhitespace
      (s.data.dropWhile Char.isWhitespace).reverse hne
  exact ⟨c, by simpa [pyStrip] using List.mem_reverse.mpr hc, hcp⟩

/-! ### Claim theorems -/

/-- C1: the claim states that a non-empty answer on the first attempt
makes `chat` return `(query, answer, True)` immediately on attempt 1 with
no sleep and no further attempts.  The source's success test
(`batch_test.py`, line 43) is `if False and answer and answer.strip():`,
so the early-return branch is dead: with a client that returns a 200
response whose body carries the non-empty answer `"hi"` on every attempt,
`chat` makes all 3 calls, sleeps 1 and 2 seconds, and returns
`(query, "", False)` — contradicting the claimed immediate
`("q", "hi", True)` with no sleeps and one call. -/
theorem C1_first_attempt_success_branch_dead :
    chat "q" (fun _ => ClientResp.result (run_chat (HttpEvent.response 200 [("answer", "hi")]))) 3
        = ⟨("q", "", false), [1, 2], 3⟩ ∧
    chat "q" (fun _ => ClientResp.result (run_chat (HttpEvent.response 200 [("answer", "hi")]))) 3
        ≠ ⟨("q", "hi", true), [], 1⟩ := by
  constructor
  · decide
  · decide

/-- C2: the claim states that with failures on attempts 0 and 1 and a
non-empty answer on attempt 2 (default `max_retries = 3`), `chat` sleeps
`2^0 = 1` then `2^1 = 2` seconds and returns the attempt-2 answer with
`success = True`.  The backoff schedule `[1, 2]` is as claimed, but the
dead success branch (`batch_test.py`, line 43) means the attempt-2 answer
is discarded and `chat` returns `("q", "", False)` instead of
`("q", "hi", True)`. -/
theorem C2_backoff_growth_but_answer_discarded :
    (chat "q"
        (fun i => if i < 2 then ClientResp.result (run_chat (HttpEvent.transportError "conn"))
          else ClientResp.result (run_chat (HttpEvent.response 200 [("answer", "hi")]))) 3).sleeps
        = [2 ^ 0, 2 ^ 1] ∧
    (chat "q"
        (fun i => if i < 2 then ClientResp.result (run_chat (HttpEvent.transportError "conn"))
          else ClientResp.result (run_chat (HttpEvent.response 200 [("answer", "hi")]))) 3).outcome
        = ("q", "", false) ∧
    (chat "q"
        (fun i => if i < 2 then ClientResp.result (run_chat (HttpEvent.transportError "conn"))
          else ClientResp.result (run_chat (HttpEvent.response 200 [("answer", "hi")]))) 3).outcome
        ≠ ("q", "hi", true) := by
  refine ⟨by decide, by decide, by decide⟩

/-- A client call whose attempt counts as failed in the source's terms:
it raised an exception inside the `try` block, or the extracted `answer`
is empty or whitespace-only (so `answer and answer.strip()` is falsy). -/
def attemptFailed : ClientResp → Prop
  | ClientResp.result r => (jsonGet r "answer" "").trim = ""
  | ClientResp.exn _ => True

/-- C4: `chat` makes at most `max_retries` client calls for any query and
client, and with a client that fails on every attempt it makes exactly 3
calls under the default `max_retries = 3` and returns
`(query, "", False)`. -/
theorem C4_retry_termination :
    (∀ (query : String) (client : Nat → ClientResp) (maxRetries : Nat),
      (chat query client maxRetries).calls ≤ maxRetries) ∧
    (∀ (query : String) (client : Nat → ClientResp),
      (∀ i, attemptFailed (client i)) →
        (chat query client 3).calls = 3 ∧
        (chat query client 3).outcome = (query, "", false)) := by
  constructor
  · intro query client maxRetries
    rw [chat, chatLoop_calls, List.length_range]
  · intro query client _
    refine ⟨?_, ?_⟩
    · rw [chat, chatLoop_calls, List.length_range]
    · exact chatLoop_outcome query client 3 (List.range 3)

/-- Witness for C4 at a concrete always-failing client. -/
theorem C4_retry_termination_witness :
    (chat "q" (fun _ => ClientResp.exn "boom") 3).calls = 3 ∧
    (chat "q" (fun _ => ClientResp.exn "boom") 3).outcome = ("q", "", false) :=
  C4_retry_termination.2 "q" (fun _ => ClientResp.exn "boom") (fun _ => trivial)

/-- With the dead success branch, every attempt falls through to the
failure path, so the loop trace does not depend on the client's responses
at all. -/
theorem chatLoop_client_irrelevant (query : String) (c1 c2 : Nat → ClientResp)
    (maxRetries : Nat) :
    ∀ attempts : List Nat,
      chatLoop query c1 maxRetries attempts = chatLoop query c2 maxRetries attempts
  | [] => rfl
  | attempt :: rest => by
      have ih := chatLoop_client_irrelevant query c1 c2 maxRetries rest
      cases h1 : c1 attempt <;> cases h2 : c2 attempt <;>
        simp [chatLoop, h1, h2, ih]

/-- An iterated attempt that fails with more attempts remaining prepends
its backoff sleep of `2 ^ attempt` to the trace. -/
theorem chatLoop_sleeps_cons (query : String) (client : Nat → ClientResp)
    (maxRetries a : Nat) (rest : List Nat) (h : a < maxRetries - 1) :
    (chatLoop query client maxRetries (a :: rest)).sleeps
      = 2 ^ a :: (chatLoop query client maxRetries rest).sleeps := by
  cases hc : client a with
  | result r => simp [chatLoop, hc, h]
  | exn m => simp [chatLoop, hc, h]

/-- A client whose attempt-0 behaviour is `first` and whose behaviour on
every later attempt is that of `rest`. -/
def clientWith0 (first : ClientResp) (rest : Nat → ClientResp) : Nat → ClientResp :=
  fun i => if i = 0 then first else rest i

/-- C5: a 200 response whose body has an empty (or missing) `answer`
field is treated by `chat` as a failed attempt, exactly like a
transport/non-2xx failure: the whole retry trace (outcome, backoff
sleeps, call count) is identical to the trace obtained if attempt 0 had
been a transport error instead, the attempt counts toward `max_retries`
(total calls stay `max_retries`), and when another attempt remains the
loop backs off `2^0` before it. -/
theorem C5_empty_answer_is_failure (query : String) (body : Json) (m : String)
    (rest : Nat → ClientResp) (maxRetries : Nat)
    (_hempty : jsonGet body "answer" "" = "") :
    chat query
        (clientWith0 (ClientResp.result (run_chat (HttpEvent.response 200 body))) rest)
        maxRetries
      = chat query
          (clientWith0 (ClientResp.result (run_chat (HttpEvent.transportError m))) rest)
          maxRetries ∧
    (chat query
        (clientWith0 (ClientResp.result (run_chat (HttpEvent.response 200 body))) rest)
        maxRetries).calls = maxRetries ∧
    (2 ≤ maxRetries →
      ∃ tail,
        (chat query
            (clientWith0 (ClientResp.result (run_chat (HttpEvent.response 200 body))) rest)
            maxRetries).sleeps = 2 ^ 0 :: tail) := by
  refine ⟨?_, ?_, ?_⟩
  · exact chatLoop_client_irrelevant query _ _ maxRetries (List.range maxRetries)
  · rw [chat, chatLoop_calls, List.length_range]
  · intro h2
    obtain ⟨k, rfl⟩ : ∃ k, maxRetries = k + 2 := ⟨maxRetries - 2, by omega⟩
    rw [chat, List.range_succ_eq_map]
    refine ⟨_, chatLoop_sleeps_cons query _ (k + 2) 0 _ (by omega)⟩

/-- Witness for C5: with an empty-answer 200 response on attempt 0 and
`max_retries = 3`, the executor backs off `2^0 = 1` before the next
attempt. -/
theorem C5_empty_answer_is_failure_witness :
    ∃ tail,
      (chat "q"
          (clientWith0 (ClientResp.result (run_chat (HttpEvent.response 200 [("answer", "")])))
            (fun _ => ClientResp.exn "e")) 3).sleeps = 2 ^ 0 :: tail :=
  (C5_empty_answer_is_failure "q" [("answer", "")] "conn" (fun _ => ClientResp.exn "e") 3
    (by decide)).2.2 (by decide)

/-- C3: for any list of N submitted queries and any completion order, the
dispatcher yields exactly N triples (one per submitted query, whatever
the tasks do), and after `main`'s aggregation loop the number of records
written to the primary sink plus the number of entries in
`error_query_list` equals N. -/
theorem C3_total_accounting (queries order : List String) (task : String → TaskResult)
    (writeOk : String → String → Bool) (hperm : order.Perm queries) :
    (thread_chat order task).length = queries.length ∧
    (main_aggregate (thread_chat order task) writeOk).fst
        + (main_aggregate (thread_chat order task) writeOk).snd.length
      = queries.length := by
  have hlen : (thread_chat order task).length = queries.length := by
    rw [thread_chat, List.length_map]
    exact hperm.length_eq
  refine ⟨hlen, ?_⟩
  rw [main_aggregate, main_fold_count]
  simpa using hlen

/-- Witness for C3 on a two-query batch consumed in reversed completion
order. -/
theorem C3_total_accounting_witness :
    (main_aggregate (thread_chat ["b", "a"] (fun q => TaskResult.value (q, "x", true)))
        (fun _ _ => true)).fst
      + (main_aggregate (thread_chat ["b", "a"] (fun q => TaskResult.value (q, "x", true)))
          (fun _ _ => true)).snd.length
      = (["a", "b"] : List String).length :=
  (C3_total_accounting ["a", "b"] ["b", "a"] (fun q => TaskResult.value (q, "x", true))
    (fun _ _ => true) (List.Perm.swap "a" "b" [])).2

/-- C6: if the task for one submitted query raises, the dispatcher still
yields a triple for every submitted query (no abort), the raising query's
triple is `(query, "", False)`, and every query still contributes its own
yielded triple. -/
theorem C6_fault_isolation (queries order : List String) (task : String → TaskResult)
    (hperm : order.Perm queries) (qbad m : String)
    (hbad : task qbad = TaskResult.raised m) (hmem : qbad ∈ queries) :
    (thread_chat order task).length = queries.length ∧
    (qbad, "", false) ∈ thread_chat order task ∧
    ∀ q ∈ queries, yield_of task q ∈ thread_chat order task := by
  refine ⟨?_, ?_, ?_⟩
  · rw [thread_chat, List.length_map]
    exact hperm.length_eq
  · have hy : yield_of task qbad = (qbad, "", false) := by
      simp [yield_of, hbad]
    rw [← hy]
    exact List.mem_map_of_mem _ (hperm.mem_iff.mpr hmem)
  · intro q hq
    exact List.mem_map_of_mem _ (hperm.mem_iff.mpr hq)

/-- Witness for C6: in the batch `["a", "b"]`, a task that raises on
`"b"` still yields `("b", "", False)` in the dispatcher's stream. -/
theorem C6_fault_isolation_witness :
    ("b", "", false) ∈ thread_chat ["b", "a"]
      (fun q => if q = "b" then TaskResult.raised "boom" else TaskResult.value (q, "x", true)) :=
  (C6_fault_isolation ["a", "b"] ["b", "a"]
    (fun q => if q = "b" then TaskResult.raised "boom" else TaskResult.value (q, "x", true))
    (List.Perm.swap "a" "b" []) "b" "boom" (by decide) (by decide)).2.1

/-- C10: when the dispatcher runs `chat` as its task, every yielded
triple's first component is one of the submitted queries, and every
yielded triple with `success = False` carries the empty answer. -/
theorem C10_yield_invariants (queries order : List String)
    (client : String → Nat → ClientResp) (maxRetries : Nat) (hperm : order.Perm queries) :
    ∀ t ∈ thread_chat order
        (fun q => TaskResult.value (chat q (client q) maxRetries).outcome),
      t.fst ∈ queries ∧ (t.snd.snd = false → t.snd.fst = "") := by
  intro t ht
  rw [thread_chat, List.mem_map] at ht
  obtain ⟨q, hq, rfl⟩ := ht
  have hy : yield_of (fun q0 => TaskResult.value (chat q0 (client q0) maxRetries).outcome) q
      = (q, "", false) := by
    simp [yield_of, chat, chatLoop_outcome]
  rw [hy]
  exact ⟨hperm.mem_iff.mp hq, fun _ => rfl⟩

/-- Witness for C10 on a one-query batch whose client raises. -/
theorem C10_yield_invariants_witness :
    (("a", "", false) : String × String × Bool).fst ∈ (["a"] : List String) ∧
    ((("a", "", false) : String × String × Bool).snd.snd = false →
      (("a", "", false) : String × String × Bool).snd.fst = "") :=
  C10_yield_invariants ["a"] ["a"] (fun _ _ => ClientResp.exn "e") 3 (List.Perm.refl _)
    ("a", "", false) (by decide)

/-- C7: writing the answer `"hello\nworld  foo"` produces the primary-sink
line `answer: helloworldfoo` (every newline and space removed), and the
strip transform is idempotent. -/
theorem C7_formatting_idempotent :
    "answer: helloworldfoo" ∈ write_result "q" "hello\nworld  foo" ∧
    ∀ s : String, formatted_answer (formatted_answer s) = formatted_answer s := by
  constructor
  · decide
  · intro s
    show String.mk _ = String.mk _
    apply congrArg String.mk
    have h1 : ((formatted_answer s).data.filter (fun c => c ≠ '\n'))
        = (formatted_answer s).data := by
      apply List.filter_eq_self.mpr
      intro a ha
      have ha2 : a ∈ (s.data.filter (fun c => c ≠ '\n')).filter (fun c => c ≠ ' ') := ha
      exact (List.mem_filter.mp (List.mem_filter.mp ha2).1).2
    rw [h1]
    apply List.filter_eq_self.mpr
    intro a ha
    have ha2 : a ∈ (s.data.filter (fun c => c ≠ '\n')).filter (fun c => c ≠ ' ') := ha
    exact (List.mem_filter.mp ha2).2

/-- C8 counterexample: the claim says any 2xx response yields the parsed
body from which the caller extracts the `answer` field.  The source
(`utils/dify_client_v2.py`, line 154) tests `status_code == 200` exactly,
so a 201 response — a 2xx status — with body `{"answer": "hi"}` is
converted to the error dict and the caller's extracted answer is `""`,
not `"hi"`. -/
theorem C8_counterexample_201 :
    (200 ≤ 201 ∧ 201 < 300) ∧
    jsonGet (run_chat (HttpEvent.response 201 [("answer", "hi")])) "answer" "" ≠ "hi" ∧
    jsonGet (run_chat (HttpEvent.response 201 [("answer", "hi")])) "status" "" = "error" := by
  refine ⟨by omega, by decide, by decide⟩

/-- C8 (amended): one client call issues a single blocking request; a
response with status exactly 200 yields the parsed body, while any
non-200 status (including other 2xx codes) or a transport/connection
error is converted into the uniform error value — a dict with
`status = "error"` and a diagnostic `message`, never a raised exception —
whose extracted `answer` defaults to the empty string; and the caller's
`answer` extraction yields `""` whenever the field is absent. -/
theorem C8_client_failure_conversion :
    (∀ body : Json, run_chat (HttpEvent.response 200 body) = body) ∧
    (∀ (status : Nat) (body : Json), status ≠ 200 →
      jsonGet (run_chat (HttpEvent.response status body)) "status" "" = "error" ∧
      jsonGet (run_chat (HttpEvent.response status body)) "message" "" = statusMessage status ∧
      jsonGet (run_chat (HttpEvent.response status body)) "answer" "" = "") ∧
    (∀ m : String,
      jsonGet (run_chat (HttpEvent.transportError m)) "status" "" = "error" ∧
      jsonGet (run_chat (HttpEvent.transportError m)) "message" "" = m ∧
      jsonGet (run_chat (HttpEvent.transportError m)) "answer" "" = "") ∧
    (∀ body : Json, (∀ p ∈ body, p.fst ≠ "answer") → jsonGet body "answer" "" = "") := by
  refine ⟨?_, ?_, ?_, ?_⟩
  · intro body
    simp [run_chat]
  · intro status body h
    rw [run_chat, if_neg h]
    refine ⟨rfl, rfl, rfl⟩
  · intro m
    refine ⟨rfl, rfl, rfl⟩
  · intro body h
    induction body with
    | nil => rfl
    | cons kv rest ih =>
        rw [jsonGet, if_neg]
        · exact ih fun p hp => h p (List.mem_cons_of_mem _ hp)
        · exact h kv (List.mem_cons_self _ _)

/-- Witness for C8 at the concrete non-200 status 500. -/
theorem C8_client_failure_conversion_witness :
    jsonGet (run_chat (HttpEvent.response 500 [("answer", "hi")])) "status" "" = "error" ∧
    jsonGet (run_chat (HttpEvent.response 500 [("answer", "hi")])) "message" ""
      = statusMessage 500 ∧
    jsonGet (run_chat (HttpEvent.response 500 [("answer", "hi")])) "answer" "" = "" :=
  C8_client_failure_conversion.2.1 500 [("answer", "hi")] (by decide)

/-- C9: loading the input is fatal when the file is missing; it is fatal
with the empty-file error exactly when every line is blank or
whitespace-only (so all such lines are discarded); and on success the
returned queries are precisely the stripped non-discarded lines, each a
non-empty string containing a non-whitespace character. -/
theorem C9_read_txt_filtering_and_fatal :
    read_txt none = Except.error ReadError.fileNotFound ∧
    (∀ lines : List String,
      read_txt (some lines) = Except.error ReadError.emptyFile ↔
        ∀ l ∈ lines, ∀ c ∈ l.data, c.isWhitespace) ∧
    (∀ lines qs : List String, read_txt (some lines) = Except.ok qs →
      qs = (lines.filter (fun l => pyStrip l ≠ "")).map pyStrip ∧
      ∀ q ∈ qs, q ≠ "" ∧ ∃ c ∈ q.data, ¬ c.isWhitespace) := by
  have hiff : ∀ lines : List String,
      ((lines.map pyStrip).filter (fun l => l ≠ "") = []) ↔
        (∀ l ∈ lines, ∀ c ∈ l.data, c.isWhitespace) := by
    intro lines
    rw [List.filter_eq_nil_iff]
    constructor
    · intro h l hl
      refine (pyStrip_eq_empty_iff l).mp ?_
      have := h (pyStrip l) (List.mem_map_of_mem _ hl)
      simpa using this
    · intro h x hx
      rw [List.mem_map] at hx
      obtain ⟨l, hl, rfl⟩ := hx
      simp [(pyStrip_eq_empty_iff l).mpr (h l hl)]
  refine ⟨rfl, ?_, ?_⟩
  · intro lines
    rw [← hiff]
    constructor
    · intro h
      by_contra hql
      rw [read_txt, if_neg hql] at h
      exact Except.noConfusion h
    · intro h
      rw [read_txt, if_pos h]
  · intro lines qs h
    by_cases hql : (lines.map pyStrip).filter (fun l => l ≠ "") = []
    · rw [read_txt, if_pos hql] at h
      exact Except.noConfusion h
    · rw [read_txt, if_neg hql] at h
      have hqs : qs = (lines.map pyStrip).filter (fun l => l ≠ "") := by
        cases h
        rfl
      constructor
      · rw [hqs, List.filter_map]
        rfl
      · intro q hq
        rw [hqs] at hq
        have h1 : q ≠ "" := by
          have := (List.mem_filter.mp hq).2
          simpa using this
        refine ⟨h1, ?_⟩
        obtain ⟨l, hl, rfl⟩ := List.mem_map.mp (List.mem_of_mem_filter hq)
        exact pyStrip_has_content l h1

/-- Witness for C9: the file `["", " a "]` loads to the single query
`"a"`, which is non-empty and contains a non-whitespace character. -/
theorem C9_read_txt_filtering_and_fatal_witness :
    "a" ≠ "" ∧ ∃ c ∈ ("a" : String).data, ¬ c.isWhitespace :=
  (C9_read_txt_filtering_and_fatal.2.2 ["", " a "] ["a"] rfl).2 "a" (by decide)
